import Mathlib

/-!
Verification of the gnsstime library (gnsstime.py): a shallow embedding of
its timestamp type (a subclass of Python's datetime), its leap-second table,
and its calendar conversion functions, together with proofs about the claims
of the specification.

Modelling conventions:
  * Python's `datetime` values are the structure `DateTime` below (proleptic
    Gregorian fields, microsecond resolution).  Python guarantees validity at
    construction; here raw structures exist and validity is the predicate
    `Valid`.  Constructors (`mkDateTime`) return `Option DateTime`, with
    `none` standing for the ValueError Python raises on invalid fields.
  * `toordinal` is CPython's proleptic-Gregorian ordinal (0001-01-01 is
    day 1); `ord2ymd` is its inverse (CPython's `date.fromordinal`),
    implemented by a 400-year-cycle jump plus bounded linear search, and
    proved to invert `toordinal` below.
  * Python's `timedelta` is normalized to a single signed microsecond count:
    all observable attributes (`days`, equality, negation) are functions of
    that count.  `timedelta d s us` is the constructor
    `datetime.timedelta(days=d, seconds=s, microseconds=us)`.
  * `datetime + timedelta` is exact microsecond arithmetic, failing (none,
    for Python's OverflowError) outside [0001-01-01, 9999-12-31].
  * Comparison of datetimes is lexicographic on the 7 fields; for valid
    datetimes this coincides with comparing `toMicro`, which is what the
    embedding uses.
  * Floats appear in the source only in reporting properties (mjd, gpswsec)
    and as the `mjd`/`tow` inputs; the claims under verification use them at
    whole-day / whole-second values, so those inputs are modelled as `Int`.
  * Python strings "yyyy/mm/dd" are modelled by their parsed integer content
    (`YmdStr`); malformed strings are outside the claims considered here.
  * `from_doy` and the `_arg2date`/`gpscal` front-end are modelled in
    `Except Unit _`: `Except.error ()` stands for a raised exception
    (ValueError / TypeError / UnboundLocalError / AttributeError), while
    returned values (including Python's `None`) are `Except.ok`.
-/

namespace Gnsstime

/-- Gregorian leap-year test, as in CPython `datetime._is_leap`. -/
def isLeap (y : ℕ) : Bool := ((y % 4 == 0) && (y % 100 != 0)) || (y % 400 == 0)

/-- Number of days in a year (366 in leap years). -/
def daysInYear (y : ℕ) : ℕ := if isLeap y then 366 else 365

/-- Days before January 1st of year `y`, as in CPython `_days_before_year`:
`(y-1)*365 + (y-1)//4 - (y-1)//100 + (y-1)//400`. -/
def daysBeforeYear (y : ℕ) : ℕ := 365 * (y - 1) + (y - 1) / 4 - (y - 1) / 100 + (y - 1) / 400

/-- Length of month `m` (1..12) given the leap flag of the year. -/
def monthLen (leap : Bool) (m : ℕ) : ℕ :=
  match m with
  | 1 => 31
  | 2 => if leap then 29 else 28
  | 3 => 31
  | 4 => 30
  | 5 => 31
  | 6 => 30
  | 7 => 31
  | 8 => 31
  | 9 => 30
  | 10 => 31
  | 11 => 30
  | 12 => 31
  | _ => 0

/-- Days before the first of month `m` (cumulative month lengths), given the
leap flag of the year. -/
def daysBeforeMonthA (leap : Bool) : ℕ → ℕ
  | 0 => 0
  | m + 1 => daysBeforeMonthA leap m + (if m = 0 then 0 else monthLen leap m)

/-- CPython `_days_in_month`. -/
def daysInMonth (y m : ℕ) : ℕ := monthLen (isLeap y) m

/-- CPython `_days_before_month`. -/
def daysBeforeMonth (y m : ℕ) : ℕ := daysBeforeMonthA (isLeap y) m

/-- CPython `date.toordinal`: proleptic Gregorian ordinal, day 1 is
0001-01-01. -/
def toordinal (y m d : ℕ) : ℕ := daysBeforeYear y + daysBeforeMonth y m + d

/-- Bounded linear search for the largest year `Y ≥ y` (advancing at most
`fuel` times) with `daysBeforeYear Y < n`. -/
def findYear : ℕ → ℕ → ℕ → ℕ
  | 0, y, _ => y
  | fuel + 1, y, n => if daysBeforeYear (y + 1) < n then findYear fuel (y + 1) n else y

/-- The year containing ordinal day `n`: jump whole 400-year cycles
(146097 days each), then search linearly. -/
def yearOf (n : ℕ) : ℕ := findYear 400 (400 * ((n - 1) / 146097) + 1) n

/-- Bounded linear search for the month, analogous to `findYear`. -/
def findMonthA (leap : Bool) : ℕ → ℕ → ℕ → ℕ
  | 0, m, _ => m
  | fuel + 1, m, r =>
    if daysBeforeMonthA leap (m + 1) < r then findMonthA leap fuel (m + 1) r else m

/-- The month containing day-of-year `r` (1-based). -/
def findMonth (leap : Bool) (r : ℕ) : ℕ := findMonthA leap 11 1 r

/-- CPython `date.fromordinal` (equivalently `_ord2ymd`): the (year, month,
day) of proleptic Gregorian ordinal `n ≥ 1`. -/
def ord2ymd (n : ℕ) : ℕ × ℕ × ℕ :=
  (yearOf n,
   findMonth (isLeap (yearOf n)) (n - daysBeforeYear (yearOf n)),
   n - daysBeforeYear (yearOf n) -
     daysBeforeMonthA (isLeap (yearOf n))
       (findMonth (isLeap (yearOf n)) (n - daysBeforeYear (yearOf n))))

/-- A Python `datetime` (and hence a `gnsstime`) value: the seven calendar
fields.  Python enforces validity at construction; here raw values exist and
`Valid` captures the constructor's checks. -/
structure DateTime where
  year : ℕ
  month : ℕ
  day : ℕ
  hour : ℕ
  minute : ℕ
  second : ℕ
  microsecond : ℕ
deriving DecidableEq

/-- The date-field checks of the `datetime` constructor (MINYEAR = 1,
MAXYEAR = 9999, month 1..12, day 1..days-in-month). -/
def ValidDate (y m d : ℕ) : Prop :=
  1 ≤ y ∧ y ≤ 9999 ∧ 1 ≤ m ∧ m ≤ 12 ∧ 1 ≤ d ∧ d ≤ daysInMonth y m

instance (y m d : ℕ) : Decidable (ValidDate y m d) := by
  unfold ValidDate
  infer_instance

/-- All constructor checks of `datetime(year, month, day, hour, minute,
second, microsecond)`. -/
def Valid (t : DateTime) : Prop :=
  ValidDate t.year t.month t.day ∧
    t.hour ≤ 23 ∧ t.minute ≤ 59 ∧ t.second ≤ 59 ∧ t.microsecond ≤ 999999

instance (t : DateTime) : Decidable (Valid t) := by
  unfold Valid
  infer_instance

/-- The `datetime`/`gnsstime` constructor on integer arguments: `none` models
the ValueError raised on out-of-range fields. -/
def mkDateTime (y mo d h mi s us : ℤ) : Option DateTime :=
  if 1 ≤ y ∧ y ≤ 9999 ∧ 1 ≤ mo ∧ mo ≤ 12 ∧ 1 ≤ d ∧ d ≤ (daysInMonth y.toNat mo.toNat : ℤ) ∧
      0 ≤ h ∧ h ≤ 23 ∧ 0 ≤ mi ∧ mi ≤ 59 ∧ 0 ≤ s ∧ s ≤ 59 ∧ 0 ≤ us ∧ us ≤ 999999 then
    some ⟨y.toNat, mo.toNat, d.toNat, h.toNat, mi.toNat, s.toNat, us.toNat⟩
  else none

/-- Seconds elapsed since midnight. -/
def secOfDay (t : DateTime) : ℕ := t.hour * 3600 + t.minute * 60 + t.second

/-- The instant as a microsecond count from 0001-01-01T00:00:00 (the minimum
Python datetime); linear in the datetime order on valid values. -/
def toMicro (t : DateTime) : ℤ :=
  (((toordinal t.year t.month t.day : ℤ) - 1) * 86400 + (secOfDay t : ℤ)) * 1000000 +
    (t.microsecond : ℤ)

/-- Ordinal of 9999-12-31 plus one day, i.e. `daysBeforeYear 10000`. -/
def maxOrd : ℕ := daysBeforeYear 10000

/-- Microsecond count of `datetime.max` = 9999-12-31T23:59:59.999999. -/
def maxMicro : ℤ := (maxOrd : ℤ) * 86400000000 - 1

/-- Inverse of `toMicro`: rebuild the datetime from a microsecond count,
`none` outside the representable range (Python's OverflowError). -/
def fromMicro (z : ℤ) : Option DateTime :=
  if 0 ≤ z ∧ z ≤ maxMicro then
    some ⟨(ord2ymd (z.toNat / 1000000 / 86400 + 1)).1,
      (ord2ymd (z.toNat / 1000000 / 86400 + 1)).2.1,
      (ord2ymd (z.toNat / 1000000 / 86400 + 1)).2.2,
      z.toNat / 1000000 % 86400 / 3600,
      z.toNat / 1000000 % 86400 % 3600 / 60,
      z.toNat / 1000000 % 86400 % 60,
      z.toNat % 1000000⟩
  else none

/-- Python `timedelta`, normalized to its total signed microsecond count
(`days`, `seconds`, `microseconds` attributes and equality are all functions
of this count). -/
structure TimeDelta where
  micro : ℤ
deriving DecidableEq

/-- `datetime.timedelta(days, seconds, microseconds)`. -/
def timedelta (days seconds microseconds : ℤ) : TimeDelta :=
  ⟨(days * 86400 + seconds) * 1000000 + microseconds⟩

/-- The `.days` attribute: floor division of the total by one day. -/
def TimeDelta.days (d : TimeDelta) : ℤ := Int.fdiv d.micro 86400000000

/-- Unary minus on timedelta. -/
def TimeDelta.neg (d : TimeDelta) : TimeDelta := ⟨-d.micro⟩

/-- `gnsstime.__add__`: `from_datetime(to_datetime(self) + other)`, exact
microsecond arithmetic with overflow as `none`. -/
def addTD (t : DateTime) (d : TimeDelta) : Option DateTime := fromMicro (toMicro t + d.micro)

/-- `gnsstime.__sub__` on two datetimes, exactly as written in the source:
`dday` from ordinals, `dsec` from seconds-of-day, and the source's
`dmicrosec = other.microsecond - other.microsecond` (kept verbatim). -/
def subDT (t u : DateTime) : TimeDelta :=
  timedelta ((toordinal t.year t.month t.day : ℤ) - (toordinal u.year u.month u.day : ℤ))
    ((secOfDay t : ℤ) - (secOfDay u : ℤ))
    ((u.microsecond : ℤ) - (u.microsecond : ℤ))

/-- `gnsstime.__sub__` on a timedelta: `self + -other`. -/
def subTD (t : DateTime) (d : TimeDelta) : Option DateTime := addTD t d.neg

/-- Class attribute `dt_gpst0 = datetime(1980, 1, 6)`, the GPS epoch. -/
def dt_gpst0 : DateTime := ⟨1980, 1, 6, 0, 0, 0, 0⟩

/-- Module constant `DT_MJD0 = datetime(1858, 11, 17)`, the MJD epoch. -/
def DT_MJD0 : DateTime := ⟨1858, 11, 17, 0, 0, 0, 0⟩

/-- An entry of the class-level leap-second table: effective date and
cumulative signed offset in seconds. -/
structure LeapEntry where
  date : DateTime
  sec : ℤ
deriving DecidableEq

/-- The `leaps` table, in the source's order (most recent first). -/
def leaps : List LeapEntry :=
  [⟨⟨2015, 7, 1, 0, 0, 0, 0⟩, -17⟩,
   ⟨⟨2012, 7, 1, 0, 0, 0, 0⟩, -16⟩,
   ⟨⟨2009, 1, 1, 0, 0, 0, 0⟩, -15⟩,
   ⟨⟨2006, 1, 1, 0, 0, 0, 0⟩, -14⟩,
   ⟨⟨1999, 1, 1, 0, 0, 0, 0⟩, -13⟩,
   ⟨⟨1997, 7, 1, 0, 0, 0, 0⟩, -12⟩,
   ⟨⟨1996, 1, 1, 0, 0, 0, 0⟩, -11⟩,
   ⟨⟨1994, 7, 1, 0, 0, 0, 0⟩, -10⟩,
   ⟨⟨1993, 7, 1, 0, 0, 0, 0⟩, -9⟩,
   ⟨⟨1992, 7, 1, 0, 0, 0, 0⟩, -8⟩,
   ⟨⟨1991, 1, 1, 0, 0, 0, 0⟩, -7⟩,
   ⟨⟨1990, 1, 1, 0, 0, 0, 0⟩, -6⟩,
   ⟨⟨1988, 1, 1, 0, 0, 0, 0⟩, -5⟩,
   ⟨⟨1985, 7, 1, 0, 0, 0, 0⟩, -4⟩,
   ⟨⟨1983, 7, 1, 0, 0, 0, 0⟩, -3⟩,
   ⟨⟨1982, 7, 1, 0, 0, 0, 0⟩, -2⟩,
   ⟨⟨1981, 7, 1, 0, 0, 0, 0⟩, -1⟩]

/-- The scan of the `leapsec` property: first entry with `self >= leap.date`
wins, 0 when none matches. -/
def lookupLeap (t : DateTime) : List LeapEntry → ℤ
  | [] => 0
  | e :: rest => if toMicro e.date ≤ toMicro t then e.sec else lookupLeap t rest

/-- Property `gnsstime.leapsec`. -/
def leapsec (t : DateTime) : ℤ := lookupLeap t leaps

/-- Property `gnsstime.gpst`: `self - timedelta(seconds=self.leapsec)`. -/
def gpst (t : DateTime) : Option DateTime := subTD t (timedelta 0 (leapsec t) 0)

/-- Property `gnsstime.gpsw`: `int((self - self.dt_gpst0).days / 7.0)`.
`int()` on the float quotient truncates toward zero, which for day counts in
the datetime range is exactly `Int.tdiv` by 7. -/
def gpsw (t : DateTime) : ℤ := Int.tdiv (TimeDelta.days (subDT t dt_gpst0)) 7

/-- Python `date.isoweekday` (Monday = 1 .. Sunday = 7). -/
def isoweekday (t : DateTime) : ℕ := (toordinal t.year t.month t.day - 1) % 7 + 1

/-- Property `gnsstime.gpswd`: `self.isoweekday() % 7`. -/
def gpswd (t : DateTime) : ℕ := isoweekday t % 7

/-- Property `gnsstime.doy`: `timetuple().tm_yday`, the day of the year. -/
def doy (t : DateTime) : ℕ := daysBeforeMonth t.year t.month + t.day

/-- `gnsstime.mjd2date`: `DT_MJD0 + timedelta(mjd)`, at whole-day inputs. -/
def mjd2date (mjd : ℤ) : Option DateTime := addTD DT_MJD0 (timedelta mjd 0 0)

/-- `gnsstime.from_datetime`: rebuild via the constructor from the fields. -/
def from_datetime (d : DateTime) : Option DateTime :=
  mkDateTime (d.year : ℤ) (d.month : ℤ) (d.day : ℤ) (d.hour : ℤ) (d.minute : ℤ)
    (d.second : ℤ) (d.microsecond : ℤ)

/-- `gnsstime.from_gpsw`:
`dt_gpst0 + timedelta(days=1024*nrollover + gpsw*7 + gpswd, seconds=seconds)`
with the source's defaulting of `gpswd` from `tow` (modelled at whole
seconds) or to 0. -/
def from_gpsw (w : ℤ) (wd : Option ℤ) (tow : Option ℤ) (nrollover : ℤ) : Option DateTime :=
  match wd with
  | some wdv => addTD dt_gpst0 (timedelta (1024 * nrollover + w * 7 + wdv) 0 0)
  | none =>
    match tow with
    | some towv =>
      addTD dt_gpst0 (timedelta (1024 * nrollover + w * 7 + Int.tdiv towv 86400)
        (towv - Int.tdiv towv 86400 * 86400) 0)
    | none => addTD dt_gpst0 (timedelta (1024 * nrollover + w * 7 + 0) 0 0)

/-- `gnsstime.from_doy`: two-digit year normalization, then the source
PRINTS an error and RETURNS None when `doy < 1` (it does not raise), else
`cls(year, 1, 1) + timedelta(days=doy-1)`.  `Except.error ()` stands for a
raised exception, `Except.ok none` for the returned None. -/
def from_doy (year : ℤ) (dayOfYear : ℤ) : Except Unit (Option DateTime) :=
  let y2 := if year < 100 then (if year < 80 then year + 2000 else year + 1900) else year
  if dayOfYear < 1 then Except.ok none
  else
    match mkDateTime y2 1 1 0 0 0 0 with
    | none => Except.error ()
    | some t =>
      match addTD t (timedelta (dayOfYear - 1) 0 0) with
      | none => Except.error ()
      | some u => Except.ok (some u)

/-- The parsed integer content of a well-formed "yyyy/mm/dd" string. -/
structure YmdStr where
  y : ℤ
  m : ℤ
  d : ℤ
deriving DecidableEq

/-- `gnsstime.ymd2date`: split the string and call the datetime
constructor. -/
def ymd2date (s : YmdStr) : Option DateTime := mkDateTime s.y s.m s.d 0 0 0 0

/-- A positional argument of `gpscal`/`_arg2date`: a datetime, a calendar
string, or any other scalar (e.g. an int), which the source's
`isinstance` chain does not handle. -/
inductive Arg where
  | adt (t : DateTime)
  | astr (s : YmdStr)
  | aint (n : ℤ)
deriving DecidableEq

/-- `dt.datetime(*args)` for 3 to 7 integer arguments (`none` is the
TypeError/ValueError raised otherwise). -/
def datetimeOfArgs : List ℤ → Option DateTime
  | [y, mo, d] => mkDateTime y mo d 0 0 0 0
  | [y, mo, d, h] => mkDateTime y mo d h 0 0 0
  | [y, mo, d, h, mi] => mkDateTime y mo d h mi 0 0
  | [y, mo, d, h, mi, s] => mkDateTime y mo d h mi s 0
  | [y, mo, d, h, mi, s, us] => mkDateTime y mo d h mi s us
  | _ => none

/-- Extract all-integer positional arguments; `none` models the TypeError
`dt.datetime(*args)` raises on a non-integer argument. -/
def argInts : List Arg → Option (List ℤ)
  | [] => some []
  | Arg.aint n :: rest => (argInts rest).map (fun l => n :: l)
  | _ => none

/-- Wrap an optional construction into the front-end result, tagging whether
the value is a `gnsstime` (true) or a plain `datetime` (false). -/
def liftOpt (tag : Bool) (o : Option DateTime) : Except Unit (Option (DateTime × Bool)) :=
  match o with
  | none => Except.error ()
  | some t => Except.ok (some (t, tag))

/-- The positional-argument block of `_arg2date` (the part before the
keyword chain).  `Except.ok none` is the state in which `tmpdate` was never
assigned (one positional argument that is neither a datetime nor a string);
the tag records gnsstime (true) versus plain datetime (false), because
`ymd2date` returns a plain datetime whose later use in `gpscal` raises
AttributeError. -/
def posResolve (self : DateTime) (args : List Arg) : Except Unit (Option (DateTime × Bool)) :=
  match args with
  | [Arg.adt t] => liftOpt true (from_datetime t)
  | [Arg.astr s] => liftOpt false (ymd2date s)
  | [Arg.aint _] => Except.ok none
  | _ =>
    if 3 ≤ args.length then
      match argInts args with
      | none => Except.error ()
      | some l =>
        match datetimeOfArgs l with
        | none => Except.error ()
        | some t => liftOpt true (from_datetime t)
    else liftOpt true (from_datetime self)

/-- `datetime.replace(year=y, month=mo, day=d)`: rebuild with the time
fields kept, revalidating. -/
def replaceYMD (t : DateTime) (y mo d : ℤ) : Option DateTime :=
  mkDateTime y mo d (t.hour : ℤ) (t.minute : ℤ) (t.second : ℤ) (t.microsecond : ℤ)

/-- `gnsstime._arg2date`: the positional block followed by the keyword
fallback chain `date` / `year,month,day` / `ymd` / `mjd` / leave-unchanged,
in the source's order.  `Except.error ()` covers every raised exception,
including the UnboundLocalError when `tmpdate` is read unassigned. -/
def arg2date (self : DateTime) (args : List Arg) (date : Option DateTime)
    (year month day : Option ℤ) (ymd : Option YmdStr) (mjd : Option ℤ) :
    Except Unit (DateTime × Bool) :=
  match posResolve self args with
  | Except.error e => Except.error e
  | Except.ok tmp0 =>
    match date with
    | some dd =>
      match from_datetime dd with
      | none => Except.error ()
      | some t => Except.ok (t, true)
    | none =>
      match year, month, day with
      | some yv, some mv, some dv =>
        match tmp0 with
        | none => Except.error ()
        | some (t, g) =>
          match replaceYMD t yv mv dv with
          | none => Except.error ()
          | some u => Except.ok (u, g)
      | _, _, _ =>
        match ymd with
        | some s =>
          match ymd2date s with
          | none => Except.error ()
          | some t =>
            match from_datetime t with
            | none => Except.error ()
            | some u => Except.ok (u, true)
        | none =>
          match mjd with
          | some mv =>
            match mjd2date mv with
            | none => Except.error ()
            | some t =>
              match from_datetime t with
              | none => Except.error ()
              | some u => Except.ok (u, true)
          | none =>
            match tmp0 with
            | none => Except.error ()
            | some r => Except.ok r

/-- `gnsstime.gpscal`: resolve the arguments, then read the `doy`, `gpsw`,
`gpswd` properties of the result; reading them on a plain `datetime`
(tag false) raises AttributeError. -/
def gpscal (self : DateTime) (args : List Arg) (date : Option DateTime)
    (year month day : Option ℤ) (ymd : Option YmdStr) (mjd : Option ℤ) :
    Except Unit (ℕ × ℤ × ℕ) :=
  match arg2date self args date year month day ymd mjd with
  | Except.error e => Except.error e
  | Except.ok (t, true) => Except.ok (doy t, gpsw t, gpswd t)
  | Except.ok (_, false) => Except.error ()

/-! ### Calendar arithmetic lemmas -/

theorem isLeap_true_iff (y : ℕ) :
    isLeap y = true ↔ ((y % 4 = 0 ∧ y % 100 ≠ 0) ∨ y % 400 = 0) := by
  simp [isLeap]

theorem daysInYear_of_leap {y : ℕ} (h : isLeap y = true) : daysInYear y = 366 := by
  simp [daysInYear, h]

theorem daysInYear_of_not_leap {y : ℕ} (h : isLeap y = false) : daysInYear y = 365 := by
  simp [daysInYear, h]

theorem daysBeforeYear_succ (y : ℕ) (h : 1 ≤ y) :
    daysBeforeYear (y + 1) = daysBeforeYear y + daysInYear y := by
  have h4 : y / 4 = (y - 1) / 4 + (if y % 4 = 0 then 1 else 0) := by
    split <;> omega
  have h100 : y / 100 = (y - 1) / 100 + (if y % 100 = 0 then 1 else 0) := by
    split <;> omega
  have h400 : y / 400 = (y - 1) / 400 + (if y % 400 = 0 then 1 else 0) := by
    split <;> omega
  cases hc : isLeap y with
  | false =>
    rw [daysInYear_of_not_leap hc]
    have hc2 : ¬((y % 4 = 0 ∧ y % 100 ≠ 0) ∨ y % 400 = 0) := by
      rw [← isLeap_true_iff]
      simp [hc]
    push_neg at hc2
    unfold daysBeforeYear
    simp only [Nat.add_sub_cancel]
    split_ifs at h4 h100 h400 <;> omega
  | true =>
    rw [daysInYear_of_leap hc]
    rw [isLeap_true_iff] at hc
    unfold daysBeforeYear
    simp only [Nat.add_sub_cancel]
    split_ifs at h4 h100 h400 <;> omega

theorem daysBeforeYear_mono {a b : ℕ} (h1 : 1 ≤ a) (h : a ≤ b) :
    daysBeforeYear a ≤ daysBeforeYear b := by
  induction b, h using Nat.le_induction with
  | base => exact le_refl _
  | succ m hm ih =>
    rw [daysBeforeYear_succ m (le_trans h1 hm)]
    omega

theorem daysBeforeYear_cycle (q : ℕ) :
    daysBeforeYear (400 * q + 1) = 146097 * q := by
  unfold daysBeforeYear
  simp only [Nat.add_sub_cancel]
  omega

theorem findYear_spec (fuel : ℕ) :
    ∀ y n, 1 ≤ y → daysBeforeYear y < n → n ≤ daysBeforeYear (y + fuel + 1) →
    1 ≤ findYear fuel y n ∧ daysBeforeYear (findYear fuel y n) < n ∧
      n ≤ daysBeforeYear (findYear fuel y n + 1) := by
  induction fuel with
  | zero =>
    intro y n h1 h2 h3
    simp only [findYear]
    exact ⟨h1, h2, by simpa using h3⟩
  | succ m ih =>
    intro y n h1 h2 h3
    simp only [findYear]
    split
    · exact ih (y + 1) n (by omega) (by assumption) (by
        have e : y + 1 + m + 1 = y + (m + 1) + 1 := by omega
        rw [e]
        exact h3)
    · exact ⟨h1, h2, by omega⟩

theorem yearOf_spec (n : ℕ) (h : 1 ≤ n) :
    1 ≤ yearOf n ∧ daysBeforeYear (yearOf n) < n ∧ n ≤ daysBeforeYear (yearOf n + 1) := by
  unfold yearOf
  have hq : 146097 * ((n - 1) / 146097) ≤ n - 1 := Nat.mul_div_le _ _ |>.trans_eq (by ring_nf)
  apply findYear_spec
  · omega
  · rw [daysBeforeYear_cycle]
    omega
  · have e1 : 400 * ((n - 1) / 146097) + 1 + 400 + 1 = 400 * ((n - 1) / 146097) + 402 := by
      omega
    have h2 : daysBeforeYear (400 * ((n - 1) / 146097 + 1) + 1) ≤
        daysBeforeYear (400 * ((n - 1) / 146097) + 402) := by
      apply daysBeforeYear_mono <;> omega
    rw [daysBeforeYear_cycle] at h2
    rw [e1]
    omega

theorem yearOf_unique {y n : ℕ} (h1 : 1 ≤ y) (h2 : daysBeforeYear y < n)
    (h3 : n ≤ daysBeforeYear (y + 1)) : yearOf n = y := by
  have hn : 1 ≤ n := by omega
  obtain ⟨hY1, hY2, hY3⟩ := yearOf_spec n hn
  rcases Nat.lt_trichotomy (yearOf n) y with hlt | heq | hgt
  · have : daysBeforeYear (yearOf n + 1) ≤ daysBeforeYear y :=
      daysBeforeYear_mono (by omega) (by omega)
    omega
  · exact heq
  · have : daysBeforeYear (y + 1) ≤ daysBeforeYear (yearOf n) :=
      daysBeforeYear_mono (by omega) (by omega)
    omega

theorem daysBeforeMonthA_13 (L : Bool) : daysBeforeMonthA L 13 = if L then 366 else 365 := by
  cases L <;> decide

theorem daysBeforeMonthA_13_eq_daysInYear (y : ℕ) :
    daysBeforeMonthA (isLeap y) 13 = daysInYear y := by
  rw [daysBeforeMonthA_13]
  unfold daysInYear
  cases isLeap y <;> simp

theorem daysBeforeMonthA_succ (L : Bool) :
    ∀ m, m < 13 → 1 ≤ m → daysBeforeMonthA L (m + 1) = daysBeforeMonthA L m + monthLen L m := by
  cases L <;> decide

theorem daysBeforeMonthA_le_13 (L : Bool) :
    ∀ m, m < 13 → daysBeforeMonthA L (m + 1) ≤ daysBeforeMonthA L 13 := by
  cases L <;> decide

set_option maxRecDepth 4000 in
theorem findMonth_spec_b (L : Bool) :
    ∀ r, r < 367 → 1 ≤ r → r ≤ daysBeforeMonthA L 13 →
      1 ≤ findMonth L r ∧ findMonth L r ≤ 12 ∧
        daysBeforeMonthA L (findMonth L r) < r ∧ r ≤ daysBeforeMonthA L (findMonth L r + 1) := by
  cases L <;> decide

theorem findMonth_spec (L : Bool) (r : ℕ) (h1 : 1 ≤ r) (h2 : r ≤ daysBeforeMonthA L 13) :
    1 ≤ findMonth L r ∧ findMonth L r ≤ 12 ∧
      daysBeforeMonthA L (findMonth L r) < r ∧ r ≤ daysBeforeMonthA L (findMonth L r + 1) := by
  apply findMonth_spec_b L r _ h1 h2
  have : daysBeforeMonthA L 13 ≤ 366 := by cases L <;> decide
  omega

set_option maxRecDepth 4000 in
theorem findMonth_unique_b (L : Bool) :
    ∀ m, m < 13 → ∀ r, r < 367 → 1 ≤ m → daysBeforeMonthA L m < r →
      r ≤ daysBeforeMonthA L (m + 1) → findMonth L r = m := by
  cases L <;> decide

theorem findMonth_unique (L : Bool) {m r : ℕ} (h1 : 1 ≤ m) (h2 : m ≤ 12)
    (h3 : daysBeforeMonthA L m < r) (h4 : r ≤ daysBeforeMonthA L (m + 1)) :
    findMonth L r = m := by
  apply findMonth_unique_b L m (by omega) r _ h1 h3 h4
  have : daysBeforeMonthA L (m + 1) ≤ daysBeforeMonthA L 13 :=
    daysBeforeMonthA_le_13 L m (by omega)
  have : daysBeforeMonthA L 13 ≤ 366 := by cases L <;> decide
  omega

theorem toordinal_bounds {y m d : ℕ} (h : ValidDate y m d) :
    daysBeforeYear y < toordinal y m d ∧ toordinal y m d ≤ daysBeforeYear (y + 1) := by
  obtain ⟨hy1, hy2, hm1, hm2, hd1, hd2⟩ := h
  unfold toordinal daysBeforeMonth
  have hsucc : daysBeforeMonthA (isLeap y) (m + 1) =
      daysBeforeMonthA (isLeap y) m + monthLen (isLeap y) m :=
    daysBeforeMonthA_succ (isLeap y) m (by omega) hm1
  have hle : daysBeforeMonthA (isLeap y) (m + 1) ≤ daysBeforeMonthA (isLeap y) 13 :=
    daysBeforeMonthA_le_13 (isLeap y) m (by omega)
  rw [daysBeforeMonthA_13_eq_daysInYear] at hle
  rw [daysBeforeYear_succ y hy1]
  unfold daysInMonth at hd2
  omega

theorem toordinal_le_maxOrd {y m d : ℕ} (h : ValidDate y m d) :
    1 ≤ toordinal y m d ∧ toordinal y m d ≤ maxOrd := by
  have hb := toordinal_bounds h
  obtain ⟨hy1, hy2, _⟩ := h
  have hm : daysBeforeYear (y + 1) ≤ daysBeforeYear 10000 :=
    daysBeforeYear_mono (by omega) (by omega : y + 1 ≤ 10000)
  unfold maxOrd
  omega

theorem ord2ymd_toordinal {y m d : ℕ} (h : ValidDate y m d) :
    ord2ymd (toordinal y m d) = (y, m, d) := by
  obtain ⟨hy1, hy2, hm1, hm2, hd1, hd2⟩ := h
  have hb := toordinal_bounds (⟨hy1, hy2, hm1, hm2, hd1, hd2⟩ : ValidDate y m d)
  have hy : yearOf (toordinal y m d) = y := yearOf_unique hy1 hb.1 hb.2
  have hr : toordinal y m d - daysBeforeYear y = daysBeforeMonthA (isLeap y) m + d := by
    unfold toordinal daysBeforeMonth
    omega
  have hsucc : daysBeforeMonthA (isLeap y) (m + 1) =
      daysBeforeMonthA (isLeap y) m + monthLen (isLeap y) m :=
    daysBeforeMonthA_succ (isLeap y) m (by omega) hm1
  unfold daysInMonth at hd2
  have hmth : findMonth (isLeap y) (daysBeforeMonthA (isLeap y) m + d) = m := by
    apply findMonth_unique (isLeap y) hm1 hm2 (by omega) (by omega)
  unfold ord2ymd
  rw [hy, hr, hmth]
  have hcancel : daysBeforeMonthA (isLeap y) m + d - daysBeforeMonthA (isLeap y) m = d := by
    omega
  rw [hcancel]

theorem ord2ymd_spec (n : ℕ) (h1 : 1 ≤ n) (h2 : n ≤ maxOrd) :
    ValidDate (ord2ymd n).1 (ord2ymd n).2.1 (ord2ymd n).2.2 ∧
      toordinal (ord2ymd n).1 (ord2ymd n).2.1 (ord2ymd n).2.2 = n := by
  obtain ⟨hY1, hY2, hY3⟩ := yearOf_spec n h1
  have hy9999 : yearOf n ≤ 9999 := by
    by_contra hc
    have : daysBeforeYear 10000 ≤ daysBeforeYear (yearOf n) :=
      daysBeforeYear_mono (by omega) (by omega)
    unfold maxOrd at h2
    omega
  have hr1 : 1 ≤ n - daysBeforeYear (yearOf n) := by omega
  have hr2 : n - daysBeforeYear (yearOf n) ≤ daysBeforeMonthA (isLeap (yearOf n)) 13 := by
    rw [daysBeforeMonthA_13_eq_daysInYear]
    have := daysBeforeYear_succ (yearOf n) hY1
    omega
  obtain ⟨hM1, hM2, hM3, hM4⟩ := findMonth_spec (isLeap (yearOf n)) _ hr1 hr2
  have hsucc : daysBeforeMonthA (isLeap (yearOf n)) (findMonth (isLeap (yearOf n))
      (n - daysBeforeYear (yearOf n)) + 1) =
      daysBeforeMonthA (isLeap (yearOf n)) (findMonth (isLeap (yearOf n))
        (n - daysBeforeYear (yearOf n))) +
        monthLen (isLeap (yearOf n)) (findMonth (isLeap (yearOf n))
          (n - daysBeforeYear (yearOf n))) :=
    daysBeforeMonthA_succ _ _ (by omega) hM1
  constructor
  · refine ⟨hY1, hy9999, hM1, hM2, ?_, ?_⟩
    · show 1 ≤ n - daysBeforeYear (yearOf n) -
        daysBeforeMonthA (isLeap (yearOf n))
          (findMonth (isLeap (yearOf n)) (n - daysBeforeYear (yearOf n)))
      omega
    · show n - daysBeforeYear (yearOf n) -
          daysBeforeMonthA (isLeap (yearOf n))
            (findMonth (isLeap (yearOf n)) (n - daysBeforeYear (yearOf n))) ≤
        daysInMonth (yearOf n)
          (findMonth (isLeap (yearOf n)) (n - daysBeforeYear (yearOf n)))
      unfold daysInMonth
      omega
  · show toordinal (yearOf n)
        (findMonth (isLeap (yearOf n)) (n - daysBeforeYear (yearOf n)))
        (n - daysBeforeYear (yearOf n) -
          daysBeforeMonthA (isLeap (yearOf n))
            (findMonth (isLeap (yearOf n)) (n - daysBeforeYear (yearOf n)))) = n
    unfold toordinal daysBeforeMonth
    omega

/-! ### Microsecond-count roundtrip lemmas -/

theorem maxOrd_eq : maxOrd = 3652059 := by decide

theorem secOfDay_lt {t : DateTime} (h : Valid t) : secOfDay t ≤ 86399 := by
  obtain ⟨-, h1, h2, h3, -⟩ := h
  unfold secOfDay
  omega

theorem toMicro_range {t : DateTime} (h : Valid t) :
    0 ≤ toMicro t ∧ toMicro t ≤ maxMicro := by
  have hord := toordinal_le_maxOrd h.1
  have hsec := secOfDay_lt h
  have hus : t.microsecond ≤ 999999 := h.2.2.2.2
  unfold toMicro maxMicro
  omega

theorem fromMicro_toMicro {t : DateTime} (h : Valid t) : fromMicro (toMicro t) = some t := by
  have hrange := toMicro_range h
  obtain ⟨hvd, hh1, hmi1, hss1, hus1⟩ := h
  have hord := toordinal_le_maxOrd hvd
  have hN : (toMicro t).toNat =
      ((toordinal t.year t.month t.day - 1) * 86400 +
        (t.hour * 3600 + t.minute * 60 + t.second)) * 1000000 + t.microsecond := by
    unfold toMicro secOfDay
    omega
  have h3 : (toMicro t).toNat / 1000000 / 86400 + 1 = toordinal t.year t.month t.day := by
    omega
  have h2 : (toMicro t).toNat / 1000000 % 86400 =
      t.hour * 3600 + t.minute * 60 + t.second := by
    omega
  have h1 : (toMicro t).toNat % 1000000 = t.microsecond := by
    omega
  unfold fromMicro
  rw [if_pos hrange, h3, h2, h1, ord2ymd_toordinal hvd]
  have h4 : (t.hour * 3600 + t.minute * 60 + t.second) / 3600 = t.hour := by omega
  have h5 : (t.hour * 3600 + t.minute * 60 + t.second) % 3600 / 60 = t.minute := by omega
  have h6 : (t.hour * 3600 + t.minute * 60 + t.second) % 60 = t.second := by omega
  rw [h4, h5, h6]

theorem fromMicro_spec {z : ℤ} {t : DateTime} (h : fromMicro z = some t) :
    Valid t ∧ toMicro t = z := by
  by_cases hc : 0 ≤ z ∧ z ≤ maxMicro
  case neg =>
    unfold fromMicro at h
    rw [if_neg hc] at h
    exact absurd h (by simp)
  unfold fromMicro at h
  rw [if_pos hc] at h
  obtain ⟨hc0, hc1⟩ := hc
  have hon : 1 ≤ z.toNat / 1000000 / 86400 + 1 := by omega
  have hox : z.toNat / 1000000 / 86400 + 1 ≤ maxOrd := by
    rw [maxOrd_eq]
    have : maxMicro = 315537897599999999 := by
      rw [maxMicro, maxOrd_eq]
      norm_num
    omega
  have hspec := ord2ymd_spec (z.toNat / 1000000 / 86400 + 1) hon hox
  injection h with he
  subst he
  refine ⟨⟨hspec.1, ?_, ?_, ?_, ?_⟩, ?_⟩
  · show z.toNat / 1000000 % 86400 / 3600 ≤ 23
    omega
  · show z.toNat / 1000000 % 86400 % 3600 / 60 ≤ 59
    omega
  · show z.toNat / 1000000 % 86400 % 60 ≤ 59
    omega
  · show z.toNat % 1000000 ≤ 999999
    omega
  · show toMicro ⟨(ord2ymd (z.toNat / 1000000 / 86400 + 1)).1,
      (ord2ymd (z.toNat / 1000000 / 86400 + 1)).2.1,
      (ord2ymd (z.toNat / 1000000 / 86400 + 1)).2.2,
      z.toNat / 1000000 % 86400 / 3600,
      z.toNat / 1000000 % 86400 % 3600 / 60,
      z.toNat / 1000000 % 86400 % 60,
      z.toNat % 1000000⟩ = z
    unfold toMicro secOfDay
    rw [show (⟨(ord2ymd (z.toNat / 1000000 / 86400 + 1)).1,
      (ord2ymd (z.toNat / 1000000 / 86400 + 1)).2.1,
      (ord2ymd (z.toNat / 1000000 / 86400 + 1)).2.2,
      z.toNat / 1000000 % 86400 / 3600,
      z.toNat / 1000000 % 86400 % 3600 / 60,
      z.toNat / 1000000 % 86400 % 60,
      z.toNat % 1000000⟩ : DateTime).year = (ord2ymd (z.toNat / 1000000 / 86400 + 1)).1 from rfl]
    have hto := hspec.2
    push_cast
    omega

theorem addTD_subTD {t u : DateTime} {d : TimeDelta} (h : Valid t)
    (hadd : addTD t d = some u) : subTD u d = some t := by
  have hadd2 : fromMicro (toMicro t + d.micro) = some u := hadd
  obtain ⟨hu, hmu⟩ := fromMicro_spec hadd2
  show fromMicro (toMicro u + -d.micro) = some t
  have hme : toMicro u + -d.micro = toMicro t := by
    rw [hmu]
    ring
  rw [hme]
  exact fromMicro_toMicro h

theorem subTD_addTD {t u : DateTime} {d : TimeDelta} (h : Valid t)
    (hsub : subTD t d = some u) : addTD u d = some t := by
  have hsub2 : fromMicro (toMicro t + -d.micro) = some u := hsub
  obtain ⟨hu, hmu⟩ := fromMicro_spec hsub2
  show fromMicro (toMicro u + d.micro) = some t
  have hme : toMicro u + d.micro = toMicro t := by
    rw [hmu]
    ring
  rw [hme]
  exact fromMicro_toMicro h

/-! ### Helper lemmas about the gnsstime operations -/

theorem from_datetime_valid {t : DateTime} (h : Valid t) : from_datetime t = some t := by
  obtain ⟨⟨h1, h2, h3, h4, h5, h6⟩, hh, hm, hs, hu⟩ := h
  unfold from_datetime mkDateTime
  rw [if_pos]
  · simp
  · simp only [Int.toNat_natCast]
    omega

theorem subDT_days {t : DateTime} (h : Valid t) :
    TimeDelta.days (subDT t dt_gpst0) = (toordinal t.year t.month t.day : ℤ) - 722820 := by
  have hsec := secOfDay_lt h
  have hord := toordinal_le_maxOrd h.1
  unfold subDT TimeDelta.days timedelta
  rw [Int.fdiv_eq_ediv _ (by norm_num)]
  rw [show toordinal dt_gpst0.year dt_gpst0.month dt_gpst0.day = 722820 from by decide]
  rw [show secOfDay dt_gpst0 = 0 from rfl]
  rw [show dt_gpst0.microsecond = 0 from rfl]
  dsimp only
  omega

theorem gpsw_eq {t : DateTime} (h : Valid t) :
    gpsw t = Int.tdiv ((toordinal t.year t.month t.day : ℤ) - 722820) 7 := by
  unfold gpsw
  rw [subDT_days h]

theorem gpswd_eq {t : DateTime} (h : Valid t) :
    gpswd t = toordinal t.year t.month t.day % 7 := by
  have hord := (toordinal_le_maxOrd h.1).1
  unfold gpswd isoweekday
  omega

theorem lookupLeap_eq_zero (t : DateTime) :
    ∀ l : List LeapEntry, (∀ e ∈ l, toMicro t < toMicro e.date) → lookupLeap t l = 0 := by
  intro l
  induction l with
  | nil => intro _; rfl
  | cons a rest ih =>
    intro hall
    unfold lookupLeap
    rw [if_neg (by have := hall a (by simp); omega)]
    exact ih (fun f hf => hall f (by simp [hf]))

theorem lookupLeap_eq_sorted (t : DateTime) :
    ∀ l : List LeapEntry, List.Pairwise (fun a b => toMicro b.date < toMicro a.date) l →
      ∀ e ∈ l, toMicro e.date ≤ toMicro t →
      (∀ f ∈ l, toMicro f.date ≤ toMicro t → toMicro f.date ≤ toMicro e.date) →
      lookupLeap t l = e.sec := by
  intro l
  induction l with
  | nil =>
    intro _ e he
    simp at he
  | cons a rest ih =>
    intro hp e he hle hmax
    rw [List.pairwise_cons] at hp
    unfold lookupLeap
    by_cases hc : toMicro a.date ≤ toMicro t
    · rw [if_pos hc]
      rcases List.mem_cons.mp he with rfl | hmem
      · rfl
      · exfalso
        have h1 : toMicro a.date ≤ toMicro e.date := hmax a (by simp) hc
        have h2 : toMicro e.date < toMicro a.date := hp.1 e hmem
        omega
    · rw [if_neg hc]
      rcases List.mem_cons.mp he with rfl | hmem
      · exact absurd hle hc
      · exact ih hp.2 e hmem hle (fun f hf hfle => hmax f (by simp [hf]) hfle)

theorem leaps_pairwise : leaps.Pairwise (fun a b => toMicro b.date < toMicro a.date) := by
  decide

/-! ### The claims -/

/-- Claim C1 (corrected): for `t = 2011-01-01T00:00:00` the cumulative
leap-second offset is -15 (as the claim says), but
`gpst = t - timedelta(seconds=-15)` moves the timestamp FORWARD to
2011-01-01T00:00:15; the spec's expected value 2010-12-31T23:59:45 matches
the module docstring, which predates the source's 2015-12-03 sign fix. -/
theorem C1_gpst_value :
    leapsec ⟨2011, 1, 1, 0, 0, 0, 0⟩ = -15 ∧
      gpst ⟨2011, 1, 1, 0, 0, 0, 0⟩ = some ⟨2011, 1, 1, 0, 0, 15, 0⟩ := by
  decide

/-- Claim C1, counterexample to the claim as stated: the gpst conversion of
2011-01-01T00:00:00 is 2011-01-01T00:00:15, not 2010-12-31T23:59:45. -/
theorem C1_counterexample :
    gpst ⟨2011, 1, 1, 0, 0, 0, 0⟩ = some ⟨2011, 1, 1, 0, 0, 15, 0⟩ ∧
      gpst ⟨2011, 1, 1, 0, 0, 0, 0⟩ ≠ some ⟨2010, 12, 31, 23, 59, 45, 0⟩ := by
  decide

/-- Claim C2 (code bug, flagged by the spec itself): the microsecond
component of a datetime difference is `other.microsecond -
other.microsecond`, hence always zero; every difference is a whole number
of microseconds divisible by 10^6, and the concrete difference of two
timestamps 500000 microseconds apart evaluates to the zero timedelta
instead of 500000 microseconds. -/
theorem C2_microsecond_bug :
    (∀ t u : DateTime, (1000000 : ℤ) ∣ (subDT t u).micro) ∧
      subDT ⟨2011, 1, 1, 0, 0, 0, 500000⟩ ⟨2011, 1, 1, 0, 0, 0, 0⟩ = timedelta 0 0 0 := by
  constructor
  · intro t u
    unfold subDT timedelta
    exact ⟨((toordinal t.year t.month t.day : ℤ) - (toordinal u.year u.month u.day : ℤ)) * 86400 +
      ((secOfDay t : ℤ) - (secOfDay u : ℤ)), by ring⟩
  · decide

/-- Claim C3 (confirmed): adding then subtracting (or subtracting then
adding) any timedelta returns exactly the original valid timestamp whenever
the intermediate result exists, with no loss of microsecond precision. -/
theorem C3_roundtrip (t u : DateTime) (d : TimeDelta) (h : Valid t) :
    (addTD t d = some u → subTD u d = some t) ∧
      (subTD t d = some u → addTD u d = some t) :=
  ⟨fun hadd => addTD_subTD h hadd, fun hsub => subTD_addTD h hsub⟩

/-- Claim C3, witness: `2011-01-01 + 2 days = 2011-01-03` and subtracting
the same timedelta returns 2011-01-01 exactly. -/
theorem C3_witness :
    subTD ⟨2011, 1, 3, 0, 0, 0, 0⟩ (timedelta 2 0 0) = some ⟨2011, 1, 1, 0, 0, 0, 0⟩ :=
  (C3_roundtrip ⟨2011, 1, 1, 0, 0, 0, 0⟩ ⟨2011, 1, 3, 0, 0, 0, 0⟩ (timedelta 2 0 0)
    (by decide)).1 (by decide)

/-- Claim C4 (confirmed): the leap-second lookup returns 0 for timestamps
before 1981-07-01 (the earliest entry), returns the offset of the latest
entry whose effective date is at or before the timestamp, and in particular
gives 0 at 1980-01-01 and -17 at 2016-01-01. -/
theorem C4_leapsec_lookup :
    (∀ t : DateTime, toMicro t < toMicro (⟨1981, 7, 1, 0, 0, 0, 0⟩ : DateTime) →
      leapsec t = 0) ∧
    (∀ (t : DateTime) (e : LeapEntry), e ∈ leaps → toMicro e.date ≤ toMicro t →
      (∀ f ∈ leaps, toMicro f.date ≤ toMicro t → toMicro f.date ≤ toMicro e.date) →
      leapsec t = e.sec) ∧
    leapsec ⟨1980, 1, 1, 0, 0, 0, 0⟩ = 0 ∧ leapsec ⟨2016, 1, 1, 0, 0, 0, 0⟩ = -17 := by
  refine ⟨?_, ?_, by decide, by decide⟩
  · intro t hlt
    have hmin : ∀ e ∈ leaps,
        toMicro (⟨1981, 7, 1, 0, 0, 0, 0⟩ : DateTime) ≤ toMicro e.date := by
      decide
    apply lookupLeap_eq_zero
    intro e he
    have := hmin e he
    omega
  · intro t e he hle hmax
    exact lookupLeap_eq_sorted t leaps leaps_pairwise e he hle hmax

/-- Claim C4, witness: mid-1980 is before every entry so the offset is 0,
and 2013-01-01 falls under the 2012-07-01 entry with offset -16. -/
theorem C4_witness :
    leapsec ⟨1980, 6, 1, 0, 0, 0, 0⟩ = 0 ∧ leapsec ⟨2013, 1, 1, 0, 0, 0, 0⟩ = -16 :=
  ⟨C4_leapsec_lookup.1 ⟨1980, 6, 1, 0, 0, 0, 0⟩ (by decide),
   C4_leapsec_lookup.2.1 ⟨2013, 1, 1, 0, 0, 0, 0⟩ ⟨⟨2012, 7, 1, 0, 0, 0, 0⟩, -16⟩
     (by decide) (by decide) (by decide)⟩

/-- Claim C5 (corrected): the GPS week is the day difference from the epoch
divided by 7 TRUNCATING TOWARD ZERO (`int()` on the float quotient); on or
after the epoch this coincides with floor division, but before the epoch it
does not, so the claim's floor formula fails there. -/
theorem C5_gpsw_trunc (t : DateTime) (h : Valid t) :
    gpsw t = Int.tdiv ((toordinal t.year t.month t.day : ℤ) - (toordinal 1980 1 6 : ℤ)) 7 ∧
      ((toordinal 1980 1 6 : ℤ) ≤ (toordinal t.year t.month t.day : ℤ) →
        gpsw t = Int.fdiv ((toordinal t.year t.month t.day : ℤ) - (toordinal 1980 1 6 : ℤ)) 7) := by
  have he : (toordinal 1980 1 6 : ℤ) = 722820 := by decide
  rw [he]
  constructor
  · exact gpsw_eq h
  · intro hge
    rw [gpsw_eq h]
    rw [Int.tdiv_eq_ediv (by omega) (by norm_num), Int.fdiv_eq_ediv _ (by norm_num)]

/-- Claim C5, witness: at 2011-01-01 the day count is 11318 and the week is
1616 by truncating division (matching the module docstring). -/
theorem C5_witness :
    gpsw ⟨2011, 1, 1, 0, 0, 0, 0⟩ =
      Int.tdiv ((toordinal 2011 1 1 : ℤ) - (toordinal 1980 1 6 : ℤ)) 7 ∧
      gpsw ⟨2011, 1, 1, 0, 0, 0, 0⟩ = 1616 :=
  ⟨(C5_gpsw_trunc ⟨2011, 1, 1, 0, 0, 0, 0⟩ (by decide)).1, by decide⟩

/-- Claim C5, counterexample to the claim as stated: one day before the GPS
epoch the code yields week 0 (truncation toward zero), while the claimed
floor formula yields -1. -/
theorem C5_counterexample :
    gpsw ⟨1980, 1, 5, 0, 0, 0, 0⟩ = 0 ∧
      Int.fdiv (TimeDelta.days (subDT ⟨1980, 1, 5, 0, 0, 0, 0⟩ dt_gpst0)) 7 = -1 ∧
      gpsw ⟨1980, 1, 5, 0, 0, 0, 0⟩ ≠
        Int.fdiv (TimeDelta.days (subDT ⟨1980, 1, 5, 0, 0, 0, 0⟩ dt_gpst0)) 7 := by
  decide

/-- Claim C6 (corrected): for every valid timestamp whose date is AT OR
AFTER the GPS epoch 1980-01-06, `from_gpsw (gpsw t) (gpswd t)` rebuilds the
exact date component (at midnight); before the epoch the truncating week
number breaks the round-trip. -/
theorem C6_week_roundtrip (t : DateTime) (h : Valid t)
    (hge : toordinal 1980 1 6 ≤ toordinal t.year t.month t.day) :
    from_gpsw (gpsw t) (some (gpswd t : ℤ)) none 0 =
      some ⟨t.year, t.month, t.day, 0, 0, 0, 0⟩ := by
  have he : toordinal 1980 1 6 = 722820 := by decide
  rw [he] at hge
  have hord := toordinal_le_maxOrd h.1
  have hD : (0 : ℤ) ≤ (toordinal t.year t.month t.day : ℤ) - 722820 := by
    omega
  have hrecomb : gpsw t * 7 + (gpswd t : ℤ) =
      (toordinal t.year t.month t.day : ℤ) - 722820 := by
    rw [gpsw_eq h, gpswd_eq h, Int.tdiv_eq_ediv hD (by norm_num)]
    omega
  have hv0 : Valid (⟨t.year, t.month, t.day, 0, 0, 0, 0⟩ : DateTime) :=
    ⟨h.1, Nat.zero_le _, Nat.zero_le _, Nat.zero_le _, Nat.zero_le _⟩
  show fromMicro (toMicro dt_gpst0 +
      (((1024 * 0 + gpsw t * 7 + (gpswd t : ℤ)) * 86400 + 0) * 1000000 + 0)) =
    some ⟨t.year, t.month, t.day, 0, 0, 0, 0⟩
  have hmicro : toMicro dt_gpst0 +
      (((1024 * 0 + gpsw t * 7 + (gpswd t : ℤ)) * 86400 + 0) * 1000000 + 0) =
      toMicro ⟨t.year, t.month, t.day, 0, 0, 0, 0⟩ := by
    rw [show toMicro dt_gpst0 = (722819 : ℤ) * 86400000000 from by decide]
    unfold toMicro secOfDay
    dsimp only
    omega
  rw [hmicro]
  exact fromMicro_toMicro hv0

/-- Claim C6, witness: 2011-01-01 (week 1616, weekday 6) round-trips to
2011-01-01T00:00:00. -/
theorem C6_witness :
    from_gpsw (gpsw ⟨2011, 1, 1, 0, 0, 0, 0⟩)
        (some (gpswd ⟨2011, 1, 1, 0, 0, 0, 0⟩ : ℤ)) none 0 =
      some ⟨2011, 1, 1, 0, 0, 0, 0⟩ :=
  C6_week_roundtrip ⟨2011, 1, 1, 0, 0, 0, 0⟩ (by decide) (by decide)

set_option maxRecDepth 4000 in
/-- Claim C6, counterexample to the claim as stated: 1980-01-05 (one day
before the epoch) has week 0 and weekday 6, which rebuild to 1980-01-12,
a different date. -/
theorem C6_counterexample :
    from_gpsw (gpsw ⟨1980, 1, 5, 0, 0, 0, 0⟩)
        (some (gpswd ⟨1980, 1, 5, 0, 0, 0, 0⟩ : ℤ)) none 0 =
      some ⟨1980, 1, 12, 0, 0, 0, 0⟩ ∧
    (⟨1980, 1, 12, 0, 0, 0, 0⟩ : DateTime).day ≠ (⟨1980, 1, 5, 0, 0, 0, 0⟩ : DateTime).day := by
  constructor
  · decide
  · decide

/-- Claim C7 (corrected): for `doy < 1` the source prints a message and
RETURNS None (the `Except.ok none` value); it does not surface an
error/exception as the claim states. -/
theorem C7_doy_none (y d : ℤ) (hd : d < 1) : from_doy y d = Except.ok none := by
  unfold from_doy
  dsimp only
  rw [if_pos hd]

/-- Claim C7, witness: `from_doy 95 (-3)` returns the None sentinel. -/
theorem C7_witness : from_doy 95 (-3) = Except.ok none :=
  C7_doy_none 95 (-3) (by norm_num)

/-- Claim C7, counterexample to the claim as stated: `from_doy 2011 0` is a
returned value (`ok none`), not an error. -/
theorem C7_counterexample :
    from_doy 2011 0 = Except.ok none ∧ from_doy 2011 0 ≠ Except.error () :=
  ⟨rfl, fun hcontra => Except.noConfusion hcontra⟩

/-- Claim C8 (confirmed): the front-end resolves multiple supplied input
forms by the fixed precedence order: a `date` (timestamp) keyword beats
everything (the result is the same as a call carrying only the timestamp);
complete `year`/`month`/`day` keywords beat the `ymd` string and `mjd`; the
`ymd` string beats `mjd` and the positional base; `mjd` beats the
positional base; a positional datetime resolves when no keyword is given;
and with nothing supplied the receiver is left unchanged.  Positional
arguments must not themselves raise (hypothesis `posResolve ... = ok r`). -/
theorem C8_precedence :
    (∀ (self : DateTime) (args : List Arg) (y m d : Option ℤ) (ymd : Option YmdStr)
        (mjd : Option ℤ) (D : DateTime) (r : Option (DateTime × Bool)),
      posResolve self args = Except.ok r →
      arg2date self args (some D) y m d ymd mjd =
        arg2date dt_gpst0 [] (some D) none none none none none) ∧
    (∀ (self : DateTime) (args : List Arg) (y m d : ℤ) (ymd : Option YmdStr) (mjd : Option ℤ),
      arg2date self args none (some y) (some m) (some d) ymd mjd =
        arg2date self args none (some y) (some m) (some d) none none) ∧
    (∀ (self : DateTime) (args : List Arg) (y m d : Option ℤ) (s : YmdStr) (mjd : Option ℤ)
        (r : Option (DateTime × Bool)),
      posResolve self args = Except.ok r →
      (y = none ∨ m = none ∨ d = none) →
      arg2date self args none y m d (some s) mjd =
        arg2date dt_gpst0 [] none none none none (some s) none) ∧
    (∀ (self : DateTime) (args : List Arg) (y m d : Option ℤ) (mv : ℤ)
        (r : Option (DateTime × Bool)),
      posResolve self args = Except.ok r →
      (y = none ∨ m = none ∨ d = none) →
      arg2date self args none y m d none (some mv) =
        arg2date dt_gpst0 [] none none none none none (some mv)) ∧
    (∀ (self D : DateTime), Valid D →
      arg2date self [Arg.adt D] none none none none none none = Except.ok (D, true)) ∧
    (∀ self : DateTime, Valid self →
      arg2date self [] none none none none none none = Except.ok (self, true)) := by
  have hepo : posResolve dt_gpst0 [] = Except.ok (some (dt_gpst0, true)) := rfl
  refine ⟨?_, ?_, ?_, ?_, ?_, ?_⟩
  · intro self args y m d ymd mjd D r hpos
    unfold arg2date
    rw [hpos, hepo]
  · intro self args y m d ymd mjd
    unfold arg2date
    cases hps : posResolve self args with
    | error e => rfl
    | ok tmp0 => rfl
  · intro self args y m d s mjd r hpos hnone
    unfold arg2date
    rw [hpos, hepo]
    rcases y with _ | yv <;> rcases m with _ | mv <;> rcases d with _ | dv <;>
      first
        | rfl
        | (rcases hnone with hx | hx | hx <;> exact Option.noConfusion hx)
  · intro self args y m d mv r hpos hnone
    unfold arg2date
    rw [hpos, hepo]
    rcases y with _ | yv <;> rcases m with _ | mv2 <;> rcases d with _ | dv <;>
      first
        | rfl
        | (rcases hnone with hx | hx | hx <;> exact Option.noConfusion hx)
  · intro self D hD
    have hpos : posResolve self [Arg.adt D] = Except.ok (some (D, true)) := by
      show liftOpt true (from_datetime D) = Except.ok (some (D, true))
      rw [from_datetime_valid hD]
      rfl
    unfold arg2date
    rw [hpos]
  · intro self hs
    have hpos : posResolve self [] = Except.ok (some (self, true)) := by
      show liftOpt true (from_datetime self) = Except.ok (some (self, true))
      rw [from_datetime_valid hs]
      rfl
    unfold arg2date
    rw [hpos]

/-- Claim C8, witness: concrete calls exercising the precedence chain: a
timestamp keyword beats a positional calendar string; complete y/m/d
keywords make the mjd keyword irrelevant; the ymd keyword beats mjd; a
positional datetime resolves; an argument-free call leaves the receiver. -/
theorem C8_witness :
    arg2date dt_gpst0 [Arg.astr ⟨2013, 12, 31⟩] (some ⟨2011, 1, 1, 0, 0, 0, 0⟩)
        none none none none none =
      arg2date dt_gpst0 [] (some ⟨2011, 1, 1, 0, 0, 0, 0⟩) none none none none none ∧
    arg2date dt_gpst0 [] none (some 2013) (some 12) (some 31) (some ⟨1999, 1, 1⟩) (some 56657) =
      arg2date dt_gpst0 [] none (some 2013) (some 12) (some 31) none none ∧
    arg2date dt_gpst0 [] none none none none (some ⟨2013, 12, 31⟩) (some 56657) =
      arg2date dt_gpst0 [] none none none none (some ⟨2013, 12, 31⟩) none ∧
    arg2date dt_gpst0 [Arg.adt ⟨2013, 12, 31, 0, 0, 0, 0⟩] none none none none none none =
      Except.ok (⟨2013, 12, 31, 0, 0, 0, 0⟩, true) ∧
    arg2date dt_gpst0 [] none none none none none none = Except.ok (dt_gpst0, true) :=
  ⟨C8_precedence.1 dt_gpst0 [Arg.astr ⟨2013, 12, 31⟩] none none none none none
      ⟨2011, 1, 1, 0, 0, 0, 0⟩ (some (⟨2013, 12, 31, 0, 0, 0, 0⟩, false)) rfl,
   C8_precedence.2.1 dt_gpst0 [] 2013 12 31 (some ⟨1999, 1, 1⟩) (some 56657),
   C8_precedence.2.2.1 dt_gpst0 [] none none none ⟨2013, 12, 31⟩ (some 56657)
      (some (dt_gpst0, true)) rfl (Or.inl rfl),
   C8_precedence.2.2.2.2.1 dt_gpst0 ⟨2013, 12, 31, 0, 0, 0, 0⟩ (by decide),
   C8_precedence.2.2.2.2.2 dt_gpst0 (by decide)⟩

/-- Claim C9 (corrected): with exactly one positional argument that is
neither a datetime nor a string, the call fails with an error only when no
`date`, `ymd` or `mjd` keyword rescues it (the y/m/d keyword path and the
final return both read the unassigned variable); the amended claim proved
here has `ymd` and `mjd` absent. -/
theorem C9_unassigned (self : DateTime) (n : ℤ) (y m d : Option ℤ) :
    gpscal self [Arg.aint n] none y m d none none = Except.error () := by
  unfold gpscal arg2date
  rw [show posResolve self [Arg.aint n] = Except.ok none from rfl]
  rcases y with _ | yv <;> rcases m with _ | mv <;> rcases d with _ | dv <;> rfl

/-- Claim C9, counterexample to the claim as stated: one int positional
argument plus a `ymd` keyword (and no timestamp keyword) SUCCEEDS,
returning (365, 1773, 2), because the ymd branch reassigns the variable. -/
theorem C9_counterexample :
    gpscal dt_gpst0 [Arg.aint 5] none none none none (some ⟨2013, 12, 31⟩) none =
      Except.ok (365, 1773, 2) ∧
    gpscal dt_gpst0 [Arg.aint 5] none none none none (some ⟨2013, 12, 31⟩) none ≠
      Except.error () := by
  constructor
  · rfl
  · intro hcontra
    exact Except.noConfusion hcontra

/-- Claim C10 (corrected): when the y/m/d keyword path resolves a call WITH
NO POSITIONAL ARGUMENTS (so the base really is the receiver), only the
year, month and day fields are replaced and the receiver's hour, minute,
second and microsecond are kept; with a positional argument present the
time fields come from that argument instead, refuting the claim as
stated. -/
theorem C10_replace_frame (self : DateTime) (y m d : ℤ) (ymd : Option YmdStr)
    (mjd : Option ℤ) (hv : Valid self) (h1 : 1 ≤ y) (h2 : y ≤ 9999) (h3 : 1 ≤ m)
    (h4 : m ≤ 12) (h5 : 1 ≤ d) (h6 : d ≤ (daysInMonth y.toNat m.toNat : ℤ)) :
    arg2date self [] none (some y) (some m) (some d) ymd mjd =
      Except.ok (⟨y.toNat, m.toNat, d.toNat, self.hour, self.minute, self.second,
        self.microsecond⟩, true) := by
  have hpos : posResolve self [] = Except.ok (some (self, true)) := by
    show liftOpt true (from_datetime self) = Except.ok (some (self, true))
    rw [from_datetime_valid hv]
    rfl
  have hrep : replaceYMD self y m d = some ⟨y.toNat, m.toNat, d.toNat, self.hour,
      self.minute, self.second, self.microsecond⟩ := by
    obtain ⟨-, hh, hm, hs, hu⟩ := hv
    unfold replaceYMD mkDateTime
    rw [if_pos]
    · simp
    · omega
  unfold arg2date
  rw [hpos]
  dsimp only
  rw [hrep]

/-- Claim C10, witness: a receiver with time 01:02:03.000004 and keywords
year=2013, month=12, day=31 yields 2013-12-31T01:02:03.000004. -/
theorem C10_witness :
    arg2date ⟨1980, 1, 6, 1, 2, 3, 4⟩ [] none (some 2013) (some 12) (some 31) none none =
      Except.ok (⟨2013, 12, 31, 1, 2, 3, 4⟩, true) :=
  C10_replace_frame ⟨1980, 1, 6, 1, 2, 3, 4⟩ 2013 12 31 none none (by decide) (by decide)
    (by decide) (by decide) (by decide) (by decide) (by decide)

/-- Claim C10, counterexample to the claim as stated: with a positional
datetime 2020-05-05T06:07:08.000009 and y/m/d keywords, the result keeps
hour 6 from the POSITIONAL argument, not hour 0 from the receiver. -/
theorem C10_counterexample :
    arg2date dt_gpst0 [Arg.adt ⟨2020, 5, 5, 6, 7, 8, 9⟩] none (some 2013) (some 12)
        (some 31) none none = Except.ok (⟨2013, 12, 31, 6, 7, 8, 9⟩, true) ∧
      (⟨2013, 12, 31, 6, 7, 8, 9⟩ : DateTime).hour ≠ dt_gpst0.hour := by
  constructor
  · rfl
  · decide

end Gnsstime
